import Mathlib

/-!
Shallow embedding of `vite-plugin-generate-html` (src/src/index.ts, the
variant with `chunks` filtering, lines 278-413): a Vite/Rollup plugin whose
`generateBundle` hook derives `<script>` and `<link>` markup from the entry
chunks of an `OutputBundle` and writes each to a configured file.

Modelling decisions:
- A bundle is a list of `BundleItem` in Object.values iteration order; a JS
  `Set<string>` (`viteMetadata.importedCss`) is a duplicate-free list in
  insertion order, here a plain `List String` (`Array.from` preserves order).
- A JS value that may or may not be an array (`attrs`, `linkAttrs`) is an
  `AttrVal`: either `arr` with its elements or `nonArr`.
- An element of the `output` option is a JS object (`Record<string,
  OutputOptions>`) modelled as an association list; `entry[chunk.name]` is
  truthy iff the key is present (the values are objects, always truthy).
- `fsPromises.writeFile` is recorded as an event `(path, content)` in a
  `GenOutcome`; file-system failures are out of scope, so a write either is
  in the list (it happened, overwriting the file) or is not.  Errors keep
  their kind and the entry name they report; the catch-blocks' message
  wrapping ("Failed to write ... elements to ...") is elided as pure text.
- JS `Array.prototype.join(sep)` is `joinSep sep`.
-/

/-- Model of JS string `.join(sep)` on a list of strings. -/
def joinSep (sep : String) : List String → String
  | [] => ""
  | [x] => x
  | x :: y :: xs => x ++ sep ++ joinSep sep (y :: xs)

/-- A JS value expected to be an array of strings: either really an array
(`arr`) or some non-array value (`nonArr`). -/
inductive AttrVal where
  | arr (toks : List String)
  | nonArr
deriving DecidableEq, Repr

/-- One value of the `output` option's records: `{ attrs, linkAttrs }`. -/
structure OutputOptions where
  attrs : AttrVal
  linkAttrs : AttrVal
deriving DecidableEq, Repr

/-- One element of the `output` array: a JS `Record<string, OutputOptions>`,
modelled as an association list from entry-point name to options. -/
def OutRecord := List (String × OutputOptions)
deriving DecidableEq

/-- One value of `Object.values(bundle)`: a Rollup output chunk or asset.
`isChunkType` models `chunk.type === "chunk"`; `importedCss` models
`viteMetadata.importedCss` (a `Set<string>` in insertion order). -/
structure BundleItem where
  isChunkType : Bool
  isEntry : Bool
  name : String
  fileName : String
  importedCss : List String
deriving DecidableEq, Repr

/-- The plugin options after defaulting (`publicDir = "/dist/"`,
`output = []`, `chunks = []`). -/
structure PluginConfig where
  publicDir : String
  jsEntryFile : String
  cssEntryFile : String
  output : List OutRecord
  chunks : List String

/-- The construction-time validation of `generateHtmlFiles`: `jsEntryFile`
and `cssEntryFile` must be non-empty (JS truthiness of a string); the
`output`-is-an-array check is carried by the type of `output`. -/
def validConfig (cfg : PluginConfig) : Prop :=
  cfg.jsEntryFile ≠ "" ∧ cfg.cssEntryFile ≠ ""

instance (cfg : PluginConfig) : Decidable (validConfig cfg) :=
  inferInstanceAs (Decidable (_ ∧ _))

/-- The errors `generateBundle` can throw (messages elided; each keeps the
entry name it reports). -/
inductive GenError where
  | noEntryPoints
  | missingOutputEntry (name : String)
  | invalidAttrs (name : String)
  | invalidLinkAttrs (name : String)
deriving DecidableEq, Repr

/-- The default script attributes `['type="module"']`. -/
def defaultScriptElementAttributes : List String := ["type=\"module\""]

/-- The default link attributes `['media="all"']`. -/
def defaultLinkElementAttributes : List String := ["media=\"all\""]

/-- Model of `output.find((entry) => entry[chunk.name])`: the first record
of the `output` array that has the key `name` (its value, an object, is
truthy). -/
def findMatching (output : List OutRecord) (name : String) : Option OutRecord :=
  output.find? (fun r => (List.lookup name r).isSome)

/-- Script-phase attribute resolution for one chunk (lines 327-347):
defaults when `output` is empty, else the first matching record must exist
and its `attrs` must be an array. -/
def resolveScriptAttrs (output : List OutRecord) (name : String) :
    Except GenError (List String) :=
  if output.length = 0 then .ok defaultScriptElementAttributes
  else
    match findMatching output name with
    | none => .error (.missingOutputEntry name)
    | some r =>
      match List.lookup name r with
      | none => .error (.missingOutputEntry name)
      | some o =>
        match o.attrs with
        | .arr toks => .ok toks
        | .nonArr => .error (.invalidAttrs name)

/-- Link-phase attribute resolution for one chunk (lines 372-385): defaults
when no record matches (no error in that case), else the match's
`linkAttrs` must be an array. -/
def resolveLinkAttrs (output : List OutRecord) (name : String) :
    Except GenError (List String) :=
  match findMatching output name with
  | none => .ok defaultLinkElementAttributes
  | some r =>
    match List.lookup name r with
    | none => .ok defaultLinkElementAttributes
    | some o =>
      match o.linkAttrs with
      | .arr toks => .ok toks
      | .nonArr => .error (.invalidLinkAttrs name)

/-- The template literal of lines 328-330 and 349-351. -/
def scriptLine (publicDir : String) (toks : List String) (fileName : String) :
    String :=
  "<script " ++ joinSep " " toks ++ " src=\"" ++ publicDir ++ fileName
    ++ "\"></script>"

/-- The template literal of lines 390-392. -/
def linkLine (publicDir : String) (toks : List String) (fileName : String) :
    String :=
  "<link href=\"" ++ publicDir ++ fileName ++ "\" rel=\"stylesheet\" "
    ++ joinSep " " toks ++ " />"

/-- Model of the script phase's `entryScripts.map(...)`: left-to-right,
the first thrown error aborts the whole map. -/
def scriptLines (publicDir : String) (output : List OutRecord) :
    List BundleItem → Except GenError (List String)
  | [] => .ok []
  | c :: cs =>
    match resolveScriptAttrs output c.name with
    | .error e => .error e
    | .ok toks =>
      match scriptLines publicDir output cs with
      | .error e => .error e
      | .ok rest => .ok (scriptLine publicDir toks c.fileName :: rest)

/-- The per-chunk blocks of the link phase (each block is the chunk's
`importedCss` lines joined by newline), over the already
css-filtered chunks, left-to-right with fail-fast. -/
def linkBlocks (publicDir : String) (output : List OutRecord) :
    List BundleItem → Except GenError (List String)
  | [] => .ok []
  | c :: cs =>
    match resolveLinkAttrs output c.name with
    | .error e => .error e
    | .ok toks =>
      match linkBlocks publicDir output cs with
      | .error e => .error e
      | .ok rest =>
        .ok (joinSep "\n" (c.importedCss.map (linkLine publicDir toks))
          :: rest)

/-- Entry selection (lines 307-314): keep entry chunks in bundle order;
when `chunks` is non-empty keep only those whose name is truthy (non-empty)
and contained in `chunks`. -/
def selectEntries (chunks : List String) (bundle : List BundleItem) :
    List BundleItem :=
  (bundle.filter (fun c => c.isChunkType && c.isEntry)).filter
    (fun c =>
      if chunks.length > 0 then (c.name != "") && chunks.contains c.name
      else true)

/-- The observable result of one `generateBundle` call: the `writeFile`
events in order, and the error thrown (if any). -/
structure GenOutcome where
  writes : List (String × String)
  error : Option GenError
deriving DecidableEq, Repr

/-- The `generateBundle` hook (lines 302-409): select entries
(`entryScripts`), fail when none; build the script markup fail-fast and
write it; then build the link markup over the css-filtered entries
fail-fast and write it (the source's `entryScripts`, `scripts` and `links`
constants are inlined). -/
def generateBundle (cfg : PluginConfig) (bundle : List BundleItem) :
    GenOutcome :=
  if (selectEntries cfg.chunks bundle).length = 0 then ⟨[], some .noEntryPoints⟩
  else
    match scriptLines cfg.publicDir cfg.output
        (selectEntries cfg.chunks bundle) with
    | .error e => ⟨[], some e⟩
    | .ok lines =>
      match linkBlocks cfg.publicDir cfg.output
          ((selectEntries cfg.chunks bundle).filter
            (fun c => c.importedCss.length > 0)) with
      | .error e => ⟨[(cfg.jsEntryFile, joinSep "\n" lines)], some e⟩
      | .ok blocks =>
        ⟨[(cfg.jsEntryFile, joinSep "\n" lines),
          (cfg.cssEntryFile, joinSep "\n" blocks)], none⟩

/-- Shorthand: the tokens an `Except`-valued resolution produced (junk on
error; used only under an is-ok hypothesis). -/
def okToks (e : Except GenError (List String)) : List String :=
  e.toOption.getD []

def cfgW4 : PluginConfig :=
  ⟨"/dist/", "javascript.html", "css.html", [], ["app"]⟩

def itemW4 : BundleItem := ⟨true, true, "admin", "admin.js", []⟩

def cfgW7 : PluginConfig :=
  ⟨"/dist/", "javascript.html", "css.html",
    [[("other", ⟨.arr ["defer"], .arr ["media=\"all\""]⟩)]], []⟩

def itemW7 : BundleItem := ⟨true, true, "app", "app.js", ["app.css"]⟩

def cfgW9 : PluginConfig :=
  ⟨"/dist/", "javascript.html", "css.html", [], []⟩

def itemW9 : BundleItem := ⟨true, true, "app", "app.abc.js", ["m.css"]⟩

def itemC5 : BundleItem := ⟨true, true, "", "unnamed.js", []⟩

def cfgW1 : PluginConfig := ⟨"/dist/", "javascript.html", "css.html", [], []⟩

def itemW1a : BundleItem := ⟨true, true, "app", "app.abc123.js", []⟩

def itemW1b : BundleItem := ⟨true, true, "admin", "admin.9.js", ["a.css"]⟩

def oW3a : OutputOptions :=
  ⟨.arr ["type=\"module\"", "data-x=\"1\""], .arr ["media=\"all\""]⟩

def oW3b : OutputOptions := ⟨.arr ["defer"], .arr ["media=\"print\""]⟩

def outputW3 : List OutRecord := [[("app", oW3a)], [("app", oW3b)]]

def cfgC2 : PluginConfig :=
  ⟨"/dist/", "javascript.html", "css.html",
    [[("other", ⟨.arr ["type=\"module\""], .arr ["media=\"all\""]⟩)]], []⟩

def itemC2 : BundleItem :=
  ⟨true, true, "app", "app.abc123.js", ["main.def456.css"]⟩

def cfgW2 : PluginConfig := ⟨"/dist/", "javascript.html", "css.html", [], []⟩

def itemW2a : BundleItem :=
  ⟨true, true, "app", "app.1.js", ["main.def456.css"]⟩

def itemW2b : BundleItem := ⟨true, true, "admin", "admin.2.js", []⟩

def cfgC6 : PluginConfig :=
  ⟨"/dist/", "javascript.html", "css.html",
    [[("app", ⟨.arr ["type=\"module\""], .nonArr⟩)]], []⟩

def itemC6 : BundleItem := ⟨true, true, "app", "app.123.js", []⟩

def oW6 : OutputOptions := ⟨.nonArr, .nonArr⟩

def rW6 : OutRecord := [("app", oW6)]

def cfgW6 : PluginConfig :=
  ⟨"/dist/", "javascript.html", "css.html", [rW6], []⟩

def itemW6 : BundleItem := ⟨true, true, "app", "app.js", ["a.css"]⟩

def cfgC8 : PluginConfig :=
  ⟨"/dist/", "javascript.html", "css.html",
    [[("zzz", ⟨.arr ["type=\"module\""], .arr ["media=\"all\""]⟩)]], []⟩

def itemC8 : BundleItem := ⟨true, true, "app", "app.js", []⟩

def cfgW8 : PluginConfig :=
  ⟨"/dist/", "javascript.html", "css.html", [], []⟩

def itemW8 : BundleItem := ⟨true, true, "app", "app.js", []⟩

def cfgW10 : PluginConfig :=
  ⟨"/dist/", "javascript.html", "css.html",
    [[("app", ⟨.arr ["type=\"module\""], .nonArr⟩)]], []⟩

def itemW10 : BundleItem := ⟨true, true, "app", "app.js", ["m.css"]⟩

/-! ### Helper lemmas -/

theorem joinSep_cons_cons (sep x y : String) (xs : List String) :
    joinSep sep (x :: y :: xs) = x ++ sep ++ joinSep sep (y :: xs) := rfl

theorem joinSep_append (sep : String) (a b : List String) (ha : a ≠ [])
    (hb : b ≠ []) :
    joinSep sep (a ++ b) = joinSep sep a ++ sep ++ joinSep sep b := by
  induction a with
  | nil => exact absurd rfl ha
  | cons x xs ih =>
    cases xs with
    | nil =>
      cases b with
      | nil => exact absurd rfl hb
      | cons y ys => simp [joinSep]
    | cons x' xs' =>
      have h := ih (by simp)
      have hl : (x :: x' :: xs') ++ b = x :: ((x' :: xs') ++ b) := rfl
      have hne : (x' :: xs') ++ b = x' :: (xs' ++ b) := rfl
      rw [hl, hne, joinSep_cons_cons, ← hne, h, joinSep_cons_cons]
      simp [String.append_assoc]

theorem joinSep_flatten (sep : String) (blocks : List (List String))
    (h : ∀ b ∈ blocks, b ≠ []) :
    joinSep sep (blocks.map (joinSep sep)) = joinSep sep blocks.flatten := by
  induction blocks with
  | nil => rfl
  | cons b bs ih =>
    cases bs with
    | nil => simp [joinSep]
    | cons b' bs' =>
      have hb : b ≠ [] := h b (by simp)
      have hb' : b' ≠ [] := h b' (by simp)
      have hrest : (b' :: bs').flatten ≠ [] := by
        cases b' with
        | nil => exact absurd rfl hb'
        | cons z zs => simp
      have ih' := ih (fun x hx => h x (by simp [hx]))
      have hmap : (b :: b' :: bs').map (joinSep sep)
          = joinSep sep b :: (b' :: bs').map (joinSep sep) := rfl
      have hmap2 : (b' :: bs').map (joinSep sep)
          = joinSep sep b' :: bs'.map (joinSep sep) := rfl
      rw [hmap, hmap2, joinSep_cons_cons, ← hmap2, ih']
      rw [show (b :: b' :: bs').flatten = b ++ (b' :: bs').flatten from rfl]
      rw [joinSep_append sep b _ hb hrest]

theorem scriptLines_eq_map (pd : String) (out : List OutRecord)
    (l : List BundleItem)
    (h : ∀ c ∈ l, (resolveScriptAttrs out c.name).isOk = true) :
    scriptLines pd out l =
      .ok (l.map (fun c =>
        scriptLine pd (okToks (resolveScriptAttrs out c.name)) c.fileName)) := by
  induction l with
  | nil => rfl
  | cons c cs ih =>
    have hc := h c (by simp)
    have ih' := ih (fun x hx => h x (by simp [hx]))
    rw [scriptLines, ih']
    cases hr : resolveScriptAttrs out c.name with
    | error e => rw [hr] at hc; simp [Except.isOk, Except.toBool] at hc
    | ok toks => simp [okToks, hr, Except.toOption]

theorem scriptLines_ok_mem (pd : String) (out : List OutRecord)
    (l : List BundleItem) (lines : List String)
    (h : scriptLines pd out l = .ok lines) :
    ∀ c ∈ l, ∃ t, resolveScriptAttrs out c.name = .ok t := by
  induction l generalizing lines with
  | nil => intro c hc; cases hc
  | cons c cs ih =>
    intro x hx
    rw [scriptLines] at h
    cases hr : resolveScriptAttrs out c.name with
    | error e => rw [hr] at h; cases h
    | ok toks =>
      rw [hr] at h
      cases hs : scriptLines pd out cs with
      | error e => rw [hs] at h; cases h
      | ok rest =>
        cases hx with
        | head => exact ⟨toks, hr⟩
        | tail _ hmem => exact ih rest hs x hmem

theorem linkBlocks_eq_map (pd : String) (out : List OutRecord)
    (l : List BundleItem)
    (h : ∀ c ∈ l, (resolveLinkAttrs out c.name).isOk = true) :
    linkBlocks pd out l =
      .ok (l.map (fun c =>
        joinSep "\n" (c.importedCss.map
          (linkLine pd (okToks (resolveLinkAttrs out c.name)))))) := by
  induction l with
  | nil => rfl
  | cons c cs ih =>
    have hc := h c (by simp)
    have ih' := ih (fun x hx => h x (by simp [hx]))
    rw [linkBlocks, ih']
    cases hr : resolveLinkAttrs out c.name with
    | error e => rw [hr] at hc; simp [Except.isOk, Except.toBool] at hc
    | ok toks => simp [okToks, hr, Except.toOption]

theorem linkBlocks_ok_mem (pd : String) (out : List OutRecord)
    (l : List BundleItem) (blocks : List String)
    (h : linkBlocks pd out l = .ok blocks) :
    ∀ c ∈ l, ∃ t, resolveLinkAttrs out c.name = .ok t := by
  induction l generalizing blocks with
  | nil => intro c hc; cases hc
  | cons c cs ih =>
    intro x hx
    rw [linkBlocks] at h
    cases hr : resolveLinkAttrs out c.name with
    | error e => rw [hr] at h; cases h
    | ok toks =>
      rw [hr] at h
      cases hs : linkBlocks pd out cs with
      | error e => rw [hs] at h; cases h
      | ok rest =>
        cases hx with
        | head => exact ⟨toks, hr⟩
        | tail _ hmem => exact ih rest hs x hmem

theorem resolveLinkAttrs_error_shape (out : List OutRecord) (name : String)
    (e : GenError) (h : resolveLinkAttrs out name = .error e) :
    e = .invalidLinkAttrs name := by
  unfold resolveLinkAttrs at h
  split at h
  · cases h
  · split at h
    · cases h
    · split at h
      · cases h
      · cases h; rfl

theorem linkBlocks_error_shape (pd : String) (out : List OutRecord)
    (l : List BundleItem) (e : GenError)
    (h : linkBlocks pd out l = .error e) :
    ∃ n, e = .invalidLinkAttrs n := by
  induction l generalizing e with
  | nil => cases h
  | cons c cs ih =>
    rw [linkBlocks] at h
    cases hr : resolveLinkAttrs out c.name with
    | error e' =>
      rw [hr] at h
      cases h
      exact ⟨c.name, resolveLinkAttrs_error_shape out c.name _ hr⟩
    | ok toks =>
      rw [hr] at h
      cases hs : linkBlocks pd out cs with
      | error e' => rw [hs] at h; cases h; exact ih _ hs
      | ok rest => rw [hs] at h; cases h

theorem generateBundle_sel_nil (cfg : PluginConfig) (bundle : List BundleItem)
    (h : selectEntries cfg.chunks bundle = []) :
    generateBundle cfg bundle = ⟨[], some .noEntryPoints⟩ := by
  unfold generateBundle
  rw [if_pos (by simp [h])]

theorem generateBundle_script_err (cfg : PluginConfig)
    (bundle : List BundleItem) (e : GenError)
    (hne : selectEntries cfg.chunks bundle ≠ [])
    (hs : scriptLines cfg.publicDir cfg.output
      (selectEntries cfg.chunks bundle) = .error e) :
    generateBundle cfg bundle = ⟨[], some e⟩ := by
  unfold generateBundle
  rw [if_neg (by simp [hne]), hs]

theorem generateBundle_link_err (cfg : PluginConfig)
    (bundle : List BundleItem) (lines : List String) (e : GenError)
    (hne : selectEntries cfg.chunks bundle ≠ [])
    (hs : scriptLines cfg.publicDir cfg.output
      (selectEntries cfg.chunks bundle) = .ok lines)
    (hl : linkBlocks cfg.publicDir cfg.output
      ((selectEntries cfg.chunks bundle).filter
        (fun c => c.importedCss.length > 0)) = .error e) :
    generateBundle cfg bundle = ⟨[(cfg.jsEntryFile, joinSep "\n" lines)],
      some e⟩ := by
  unfold generateBundle
  rw [if_neg (by simp [hne]), hs, hl]

theorem generateBundle_all_ok (cfg : PluginConfig)
    (bundle : List BundleItem) (lines blocks : List String)
    (hne : selectEntries cfg.chunks bundle ≠ [])
    (hs : scriptLines cfg.publicDir cfg.output
      (selectEntries cfg.chunks bundle) = .ok lines)
    (hl : linkBlocks cfg.publicDir cfg.output
      ((selectEntries cfg.chunks bundle).filter
        (fun c => c.importedCss.length > 0)) = .ok blocks) :
    generateBundle cfg bundle =
      ⟨[(cfg.jsEntryFile, joinSep "\n" lines),
        (cfg.cssEntryFile, joinSep "\n" blocks)], none⟩ := by
  unfold generateBundle
  rw [if_neg (by simp [hne]), hs, hl]

theorem genFails_of_script_resolve_err (cfg : PluginConfig)
    (bundle : List BundleItem) (c : BundleItem) (e : GenError)
    (hc : c ∈ selectEntries cfg.chunks bundle)
    (he : resolveScriptAttrs cfg.output c.name = .error e) :
    (generateBundle cfg bundle).writes = [] ∧
    (generateBundle cfg bundle).error.isSome = true := by
  have hne : selectEntries cfg.chunks bundle ≠ [] := by
    intro h; rw [h] at hc; cases hc
  cases hs : scriptLines cfg.publicDir cfg.output
      (selectEntries cfg.chunks bundle) with
  | ok lines =>
    obtain ⟨t, ht⟩ := scriptLines_ok_mem _ _ _ _ hs c hc
    rw [ht] at he; cases he
  | error e' =>
    rw [generateBundle_script_err cfg bundle e' hne hs]
    exact ⟨rfl, rfl⟩

theorem genFails_of_link_resolve_err (cfg : PluginConfig)
    (bundle : List BundleItem) (c : BundleItem) (e : GenError)
    (hc : c ∈ selectEntries cfg.chunks bundle)
    (hcss : c.importedCss ≠ [])
    (he : resolveLinkAttrs cfg.output c.name = .error e) :
    (generateBundle cfg bundle).error.isSome = true := by
  have hne : selectEntries cfg.chunks bundle ≠ [] := by
    intro h; rw [h] at hc; cases hc
  have hmemf : c ∈ (selectEntries cfg.chunks bundle).filter
      (fun c => c.importedCss.length > 0) := by
    rw [List.mem_filter]
    refine ⟨hc, ?_⟩
    cases hcc : c.importedCss with
    | nil => exact absurd hcc hcss
    | cons a as => simp [hcc]
  cases hs : scriptLines cfg.publicDir cfg.output
      (selectEntries cfg.chunks bundle) with
  | error e' =>
    rw [generateBundle_script_err cfg bundle e' hne hs]; rfl
  | ok lines =>
    cases hl : linkBlocks cfg.publicDir cfg.output
        ((selectEntries cfg.chunks bundle).filter
          (fun c => c.importedCss.length > 0)) with
    | error e' =>
      rw [generateBundle_link_err cfg bundle lines e' hne hs hl]; rfl
    | ok blocks =>
      obtain ⟨t, ht⟩ := linkBlocks_ok_mem _ _ _ _ hl c hmemf
      rw [ht] at he; cases he

theorem find?_append_first {α} (p : α → Bool) (pre post : List α) (r : α)
    (hr : p r = true) (hpre : ∀ x ∈ pre, p x = false) :
    (pre ++ r :: post).find? p = some r := by
  induction pre with
  | nil => simp [List.find?_cons_of_pos, hr]
  | cons x xs ih =>
    have hx := hpre x (by simp)
    rw [List.cons_append, List.find?_cons_of_neg _ (by simp [hx])]
    exact ih (fun y hy => hpre y (by simp [hy]))

/-! ### Claims -/

/-- Claim C4: whenever entry selection (entry chunks, restricted by a
non-empty `chunks` filter — including a filter matching nothing) yields an
empty sequence, `generateBundle` fails with the no-entry-points error and
performs no write to either output path. -/
theorem C4_empty_selection_fails (cfg : PluginConfig)
    (bundle : List BundleItem)
    (h : selectEntries cfg.chunks bundle = []) :
    (generateBundle cfg bundle).error = some .noEntryPoints ∧
    (generateBundle cfg bundle).writes = [] := by
  rw [generateBundle_sel_nil cfg bundle h]
  exact ⟨rfl, rfl⟩

/-- Witness for C4: the filter `["app"]` matches nothing in a bundle whose
only entry chunk is named "admin". -/
theorem C4_empty_selection_fails_witness :
    selectEntries cfgW4.chunks [itemW4] = [] ∧
    ((generateBundle cfgW4 [itemW4]).error = some .noEntryPoints ∧
     (generateBundle cfgW4 [itemW4]).writes = []) :=
  ⟨by decide, C4_empty_selection_fails cfgW4 [itemW4] (by decide)⟩

/-- Claim C7: if script-phase attribute resolution fails for any selected
entry, the whole operation aborts before any write: neither output file is
touched and an error is reported. -/
theorem C7_fail_fast_no_partial_write (cfg : PluginConfig)
    (bundle : List BundleItem) (c : BundleItem) (e : GenError)
    (hc : c ∈ selectEntries cfg.chunks bundle)
    (he : resolveScriptAttrs cfg.output c.name = .error e) :
    (generateBundle cfg bundle).writes = [] ∧
    (generateBundle cfg bundle).error.isSome = true :=
  genFails_of_script_resolve_err cfg bundle c e hc he

/-- Witness for C7: overrides are configured but entry "app" is not
covered, so script resolution fails and nothing is written. -/
theorem C7_fail_fast_no_partial_write_witness :
    itemW7 ∈ selectEntries cfgW7.chunks [itemW7]
    ∧ resolveScriptAttrs cfgW7.output itemW7.name =
        .error (.missingOutputEntry "app")
    ∧ ((generateBundle cfgW7 [itemW7]).writes = []
       ∧ (generateBundle cfgW7 [itemW7]).error.isSome = true) :=
  ⟨by decide, by rfl,
    C7_fail_fast_no_partial_write cfgW7 [itemW7] itemW7
      (.missingOutputEntry "app") (by decide) (by rfl)⟩

/-- Claim C9: the generator is deterministic — two invocations with equal
configuration and equal artifact set produce equal outcomes, in particular
byte-identical script and style file contents. -/
theorem C9_deterministic (cfg₁ cfg₂ : PluginConfig)
    (b₁ b₂ : List BundleItem) (hc : cfg₁ = cfg₂) (hb : b₁ = b₂) :
    generateBundle cfg₁ b₁ = generateBundle cfg₂ b₂ := by
  rw [hc, hb]

/-- Witness for C9 at a concrete repeated invocation. -/
theorem C9_deterministic_witness :
    cfgW9 = cfgW9 ∧ [itemW9] = [itemW9] ∧
    generateBundle cfgW9 [itemW9] = generateBundle cfgW9 [itemW9] :=
  ⟨rfl, rfl, C9_deterministic cfgW9 cfgW9 [itemW9] [itemW9] rfl rfl⟩

/-- Claim C5 counterexample: an entry chunk whose `name` is the empty
string is dropped by a non-empty filter even when the empty string is a
member of the filter, because line 311 tests `chunk.name &&` (JS
truthiness) before membership; so "exactly those whose entryName is a
member of the filter are retained" fails. -/
theorem C5_counterexample :
    itemC5.isChunkType = true ∧ itemC5.isEntry = true
    ∧ ([""] : List String).contains itemC5.name = true
    ∧ selectEntries [""] [itemC5] = [] := by decide

/-- Claim C5 (amended): selection returns exactly the artifacts that are
entry chunks, in artifact-set iteration order (a sublist of the set); when
the filter is non-empty, exactly those whose `entryName` is non-empty
(truthy) and a member of the filter are retained, still in the original
order. -/
theorem C5_selection_amended (chunks : List String)
    (bundle : List BundleItem) :
    (∀ c, c ∈ selectEntries chunks bundle ↔
      (c ∈ bundle ∧ (c.isChunkType && c.isEntry) = true ∧
        (chunks = [] ∨ (c.name ≠ "" ∧ c.name ∈ chunks))))
    ∧ (selectEntries chunks bundle).Sublist
        (bundle.filter (fun c => c.isChunkType && c.isEntry))
    ∧ (selectEntries chunks bundle).Sublist bundle := by
  refine ⟨?_, List.filter_sublist _,
    (List.filter_sublist _).trans (List.filter_sublist _)⟩
  intro c
  cases chunks with
  | nil => simp [selectEntries, List.mem_filter]
  | cons a as =>
    simp [selectEntries, List.mem_filter, and_assoc]
    intro _
    constructor
    · rintro ⟨h1, h2, h3, h4⟩; exact ⟨h3, h4, h1, h2⟩
    · rintro ⟨h1, h2, h3, h4⟩; exact ⟨h3, h4, h1, h2⟩

/-- Claim C1: with a validated configuration, a non-empty selection, and
script-attribute resolution succeeding on every selected entry, the
content written to the script output path is exactly the newline-join, in
selection order, of one script line per selected entry — each line
carrying the entry's resolved tokens joined by single spaces and a `src`
equal to `publicDir` concatenated literally with the entry's `fileName`
(no normalization, no trailing newline); and with no filter the number of
script lines equals the number of entry chunks. -/
theorem C1_script_content (cfg : PluginConfig) (bundle : List BundleItem)
    (hv : validConfig cfg)
    (hne : selectEntries cfg.chunks bundle ≠ [])
    (hok : ∀ c ∈ selectEntries cfg.chunks bundle,
      (resolveScriptAttrs cfg.output c.name).isOk = true) :
    (generateBundle cfg bundle).writes.head? =
      some (cfg.jsEntryFile,
        joinSep "\n" ((selectEntries cfg.chunks bundle).map (fun c =>
          "<script "
            ++ joinSep " " (okToks (resolveScriptAttrs cfg.output c.name))
            ++ " src=\"" ++ cfg.publicDir ++ c.fileName ++ "\"></script>")))
    ∧ (cfg.chunks = [] →
        ((selectEntries cfg.chunks bundle).map (fun c =>
          scriptLine cfg.publicDir
            (okToks (resolveScriptAttrs cfg.output c.name))
            c.fileName)).length
          = (bundle.filter (fun c => c.isChunkType && c.isEntry)).length) := by
  have hs := scriptLines_eq_map cfg.publicDir cfg.output _ hok
  constructor
  · cases hl : linkBlocks cfg.publicDir cfg.output
        ((selectEntries cfg.chunks bundle).filter
          (fun c => c.importedCss.length > 0)) with
    | error e =>
      rw [generateBundle_link_err cfg bundle _ e hne hs hl]
      rfl
    | ok blocks =>
      rw [generateBundle_all_ok cfg bundle _ blocks hne hs hl]
      rfl
  · intro hch
    rw [List.length_map]
    simp [selectEntries, hch]

/-- Witness for C1: two entry chunks, no overrides, no filter. -/
theorem C1_script_content_witness :
    validConfig cfgW1
    ∧ selectEntries cfgW1.chunks [itemW1a, itemW1b] ≠ []
    ∧ (∀ c ∈ selectEntries cfgW1.chunks [itemW1a, itemW1b],
        (resolveScriptAttrs cfgW1.output c.name).isOk = true)
    ∧ ((generateBundle cfgW1 [itemW1a, itemW1b]).writes.head? =
        some (cfgW1.jsEntryFile,
          joinSep "\n"
            ((selectEntries cfgW1.chunks [itemW1a, itemW1b]).map (fun c =>
              "<script "
                ++ joinSep " "
                    (okToks (resolveScriptAttrs cfgW1.output c.name))
                ++ " src=\"" ++ cfgW1.publicDir ++ c.fileName
                ++ "\"></script>")))
      ∧ (cfgW1.chunks = [] →
          ((selectEntries cfgW1.chunks [itemW1a, itemW1b]).map (fun c =>
            scriptLine cfgW1.publicDir
              (okToks (resolveScriptAttrs cfgW1.output c.name))
              c.fileName)).length
            = ([itemW1a, itemW1b].filter
                (fun c => c.isChunkType && c.isEntry)).length)) :=
  ⟨by decide, by decide, by decide,
    C1_script_content cfgW1 [itemW1a, itemW1b] (by decide) (by decide)
      (by decide)⟩

/-- Claim C3: with a non-empty override sequence, the first record whose
key equals the entry's name is the match (first match wins on duplicate
keys); when no record matches a selected entry, resolution for that entry
fails with the missing-override error naming it, and the whole operation
fails without writing anything. -/
theorem C3_override_first_match (output : List OutRecord) (name : String)
    (hne : output ≠ []) :
    (∀ pre r post, output = pre ++ r :: post →
        (List.lookup name r).isSome = true →
        (∀ x ∈ pre, (List.lookup name x).isSome = false) →
        findMatching output name = some r)
    ∧ ((∀ r ∈ output, (List.lookup name r).isSome = false) →
        resolveScriptAttrs output name = .error (.missingOutputEntry name)
        ∧ ∀ cfg bundle c, cfg.output = output →
            c ∈ selectEntries cfg.chunks bundle → c.name = name →
            (generateBundle cfg bundle).writes = [] ∧
            (generateBundle cfg bundle).error.isSome = true) := by
  constructor
  · intro pre r post hdec hr hpre
    rw [findMatching, hdec]
    exact find?_append_first _ pre post r hr hpre
  · intro hnomatch
    have hfind : findMatching output name = none := by
      rw [findMatching, List.find?_eq_none]
      intro x hx
      simp [hnomatch x hx]
    have hres : resolveScriptAttrs output name =
        .error (.missingOutputEntry name) := by
      unfold resolveScriptAttrs
      rw [if_neg (by simp [hne]), hfind]
    refine ⟨hres, ?_⟩
    intro cfg bundle c hout hc hname
    exact genFails_of_script_resolve_err cfg bundle c _ hc
      (by rw [hout, hname]; exact hres)

/-- Witness for C3: duplicate-keyed override sequence, resolved for a name
with no match. -/
theorem C3_override_first_match_witness :
    outputW3 ≠ [] ∧
    ((∀ pre r post, outputW3 = pre ++ r :: post →
        (List.lookup "ghost" r).isSome = true →
        (∀ x ∈ pre, (List.lookup "ghost" x).isSome = false) →
        findMatching outputW3 "ghost" = some r)
    ∧ ((∀ r ∈ outputW3, (List.lookup "ghost" r).isSome = false) →
        resolveScriptAttrs outputW3 "ghost" =
          .error (.missingOutputEntry "ghost")
        ∧ ∀ cfg bundle c, cfg.output = outputW3 →
            c ∈ selectEntries cfg.chunks bundle → c.name = "ghost" →
            (generateBundle cfg bundle).writes = [] ∧
            (generateBundle cfg bundle).error.isSome = true)) :=
  ⟨by decide, C3_override_first_match outputW3 "ghost" (by decide)⟩

theorem joinSep_map_flatten {α} (sep : String) (l : List α)
    (f : α → List String) (h : ∀ a ∈ l, f a ≠ []) :
    joinSep sep (l.map (fun a => joinSep sep (f a))) =
      joinSep sep (l.map f).flatten := by
  have h2 : ∀ b ∈ l.map f, b ≠ [] := by
    intro b hb
    obtain ⟨a, ha, rfl⟩ := List.mem_map.mp hb
    exact h a ha
  have h3 : (l.map f).map (joinSep sep) =
      l.map (fun a => joinSep sep (f a)) := by
    rw [List.map_map]; rfl
  rw [← h3, joinSep_flatten sep (l.map f) h2]

/-- Claim C2 counterexample: link-attribute resolution succeeds on every
selected entry (the unmatched entry falls back to the default
`media="all"`), yet nothing at all is written to the style output path,
because script-attribute resolution fails first and aborts the operation;
the claim omits that hypothesis. -/
theorem C2_counterexample :
    validConfig cfgC2
    ∧ selectEntries cfgC2.chunks [itemC2] = [itemC2]
    ∧ (∀ c ∈ selectEntries cfgC2.chunks [itemC2],
        (resolveLinkAttrs cfgC2.output c.name).isOk = true)
    ∧ (generateBundle cfgC2 [itemC2]).writes = [] := by decide

/-- Claim C2 (amended): with a validated configuration, a non-empty
selection, and script- and link-attribute resolution succeeding on every
selected entry, the content written to the style output path is the
newline-join, over exactly the selected entries whose `importedCss` is
non-empty in selection order, of one link line per style file in insertion
order — `href` equal to `publicDir` concatenated literally with the style
file path, the stylesheet relation, and the entry's resolved link tokens
space-joined (default `media="all"` when no override matches). -/
theorem C2_link_content_amended (cfg : PluginConfig)
    (bundle : List BundleItem)
    (hv : validConfig cfg)
    (hne : selectEntries cfg.chunks bundle ≠ [])
    (hsok : ∀ c ∈ selectEntries cfg.chunks bundle,
      (resolveScriptAttrs cfg.output c.name).isOk = true)
    (hlok : ∀ c ∈ selectEntries cfg.chunks bundle,
      (resolveLinkAttrs cfg.output c.name).isOk = true) :
    (generateBundle cfg bundle).error = none
    ∧ (generateBundle cfg bundle).writes.getLast? =
      some (cfg.cssEntryFile,
        joinSep "\n"
          (((selectEntries cfg.chunks bundle).filter
              (fun c => c.importedCss.length > 0)).map (fun c =>
            c.importedCss.map (fun fn =>
              "<link href=\"" ++ cfg.publicDir ++ fn
                ++ "\" rel=\"stylesheet\" "
                ++ joinSep " "
                    (okToks (resolveLinkAttrs cfg.output c.name))
                ++ " />"))).flatten) := by
  have hs := scriptLines_eq_map cfg.publicDir cfg.output _ hsok
  have hlok' : ∀ c ∈ (selectEntries cfg.chunks bundle).filter
      (fun c => c.importedCss.length > 0),
      (resolveLinkAttrs cfg.output c.name).isOk = true :=
    fun c hc => hlok c (List.mem_filter.mp hc).1
  have hl := linkBlocks_eq_map cfg.publicDir cfg.output _ hlok'
  have hb : ∀ c ∈ (selectEntries cfg.chunks bundle).filter
      (fun c => c.importedCss.length > 0),
      c.importedCss.map (linkLine cfg.publicDir
        (okToks (resolveLinkAttrs cfg.output c.name))) ≠ [] := by
    intro c hc
    have hpos := (List.mem_filter.mp hc).2
    cases hcc : c.importedCss with
    | nil => rw [hcc] at hpos; simp at hpos
    | cons a as => simp [hcc]
  rw [generateBundle_all_ok cfg bundle _ _ hne hs hl]
  refine ⟨rfl, ?_⟩
  show some (cfg.cssEntryFile, joinSep "\n"
    (((selectEntries cfg.chunks bundle).filter
        (fun c => c.importedCss.length > 0)).map (fun c =>
      joinSep "\n" (c.importedCss.map (linkLine cfg.publicDir
        (okToks (resolveLinkAttrs cfg.output c.name))))))) = _
  rw [joinSep_map_flatten "\n"
    ((selectEntries cfg.chunks bundle).filter
      (fun c => c.importedCss.length > 0))
    (fun c => c.importedCss.map (linkLine cfg.publicDir
      (okToks (resolveLinkAttrs cfg.output c.name)))) hb]
  rfl

/-- Witness for the amended C2: one entry with a style file, one without,
default attributes. -/
theorem C2_link_content_amended_witness :
    validConfig cfgW2
    ∧ selectEntries cfgW2.chunks [itemW2a, itemW2b] ≠ []
    ∧ (∀ c ∈ selectEntries cfgW2.chunks [itemW2a, itemW2b],
        (resolveScriptAttrs cfgW2.output c.name).isOk = true)
    ∧ (∀ c ∈ selectEntries cfgW2.chunks [itemW2a, itemW2b],
        (resolveLinkAttrs cfgW2.output c.name).isOk = true)
    ∧ ((generateBundle cfgW2 [itemW2a, itemW2b]).error = none
      ∧ (generateBundle cfgW2 [itemW2a, itemW2b]).writes.getLast? =
        some (cfgW2.cssEntryFile,
          joinSep "\n"
            (((selectEntries cfgW2.chunks [itemW2a, itemW2b]).filter
                (fun c => c.importedCss.length > 0)).map (fun c =>
              c.importedCss.map (fun fn =>
                "<link href=\"" ++ cfgW2.publicDir ++ fn
                  ++ "\" rel=\"stylesheet\" "
                  ++ joinSep " "
                      (okToks (resolveLinkAttrs cfgW2.output c.name))
                  ++ " />"))).flatten)) :=
  ⟨by decide, by decide, by decide, by decide,
    C2_link_content_amended cfgW2 [itemW2a, itemW2b] (by decide) (by decide)
      (by decide) (by decide)⟩

/-- Claim C6 counterexample: entry "app" is selected and matched by an
override whose `linkAttrs` is not an array, yet the whole operation
succeeds, because the link phase never validates `linkAttrs` for an entry
with empty `importedCss` (line 370 filters it out before line 378's
check). -/
theorem C6_counterexample :
    itemC6 ∈ selectEntries cfgC6.chunks [itemC6]
    ∧ findMatching cfgC6.output itemC6.name =
        some [("app", ⟨.arr ["type=\"module\""], .nonArr⟩)]
    ∧ (generateBundle cfgC6 [itemC6]).error = none := by decide

/-- Claim C6 (amended): for a selected entry matched by an override, a
non-array `attrs` makes script resolution fail with the invalid-attributes
error naming the entry and field, and the whole operation fail with no
writes at all; a non-array `linkAttrs` makes link resolution fail with the
invalid-link-attributes error naming the entry and field, and it makes the
whole operation fail whenever that entry's `importedCss` is non-empty. -/
theorem C6_invalid_attribute_amended (cfg : PluginConfig)
    (bundle : List BundleItem) (c : BundleItem) (r : OutRecord)
    (o : OutputOptions)
    (hc : c ∈ selectEntries cfg.chunks bundle)
    (hf : findMatching cfg.output c.name = some r)
    (hlk : List.lookup c.name r = some o) :
    (o.attrs = .nonArr →
      resolveScriptAttrs cfg.output c.name = .error (.invalidAttrs c.name)
      ∧ (generateBundle cfg bundle).writes = []
      ∧ (generateBundle cfg bundle).error.isSome = true)
    ∧ (o.linkAttrs = .nonArr →
      resolveLinkAttrs cfg.output c.name =
        .error (.invalidLinkAttrs c.name)
      ∧ (c.importedCss ≠ [] →
          (generateBundle cfg bundle).error.isSome = true)) := by
  have hout : cfg.output ≠ [] := by
    intro h
    rw [findMatching, h] at hf
    cases hf
  constructor
  · intro hnon
    have hres : resolveScriptAttrs cfg.output c.name =
        .error (.invalidAttrs c.name) := by
      unfold resolveScriptAttrs
      rw [if_neg (by simp [hout])]
      simp only [hf, hlk, hnon]
    exact ⟨hres, genFails_of_script_resolve_err cfg bundle c _ hc hres⟩
  · intro hnon
    have hres : resolveLinkAttrs cfg.output c.name =
        .error (.invalidLinkAttrs c.name) := by
      unfold resolveLinkAttrs
      simp only [hf, hlk, hnon]
    exact ⟨hres, fun hcss =>
      genFails_of_link_resolve_err cfg bundle c _ hc hcss hres⟩

/-- Witness for the amended C6: an override with non-array `attrs` and
non-array `linkAttrs`, matched by a selected entry with imported css. -/
theorem C6_invalid_attribute_amended_witness :
    itemW6 ∈ selectEntries cfgW6.chunks [itemW6]
    ∧ findMatching cfgW6.output itemW6.name = some rW6
    ∧ List.lookup itemW6.name rW6 = some oW6
    ∧ ((oW6.attrs = .nonArr →
        resolveScriptAttrs cfgW6.output itemW6.name =
          .error (.invalidAttrs itemW6.name)
        ∧ (generateBundle cfgW6 [itemW6]).writes = []
        ∧ (generateBundle cfgW6 [itemW6]).error.isSome = true)
      ∧ (oW6.linkAttrs = .nonArr →
        resolveLinkAttrs cfgW6.output itemW6.name =
          .error (.invalidLinkAttrs itemW6.name)
        ∧ (itemW6.importedCss ≠ [] →
            (generateBundle cfgW6 [itemW6]).error.isSome = true))) :=
  ⟨by decide, by decide, by decide,
    C6_invalid_attribute_amended cfgW6 [itemW6] itemW6 rW6 oW6
      (by decide) (by decide) (by decide)⟩

/-- Claim C8 counterexample: selection is non-empty and no selected entry
has imported css, yet nothing is written to the style output path (nor
anywhere), because script-attribute resolution fails first; the claim
omits that hypothesis. -/
theorem C8_counterexample :
    validConfig cfgC8
    ∧ selectEntries cfgC8.chunks [itemC8] ≠ []
    ∧ (∀ c ∈ selectEntries cfgC8.chunks [itemC8], c.importedCss = [])
    ∧ (generateBundle cfgC8 [itemC8]).writes = [] := by decide

/-- Claim C8 (amended): with a validated configuration, a non-empty
selection on which script-attribute resolution succeeds, and no selected
entry having imported css, the generator still writes to the style output
path — an empty content, overwriting the file — rather than skipping the
write. -/
theorem C8_write_empty_amended (cfg : PluginConfig)
    (bundle : List BundleItem)
    (hv : validConfig cfg)
    (hne : selectEntries cfg.chunks bundle ≠ [])
    (hcss : ∀ c ∈ selectEntries cfg.chunks bundle, c.importedCss = [])
    (hsok : ∀ c ∈ selectEntries cfg.chunks bundle,
      (resolveScriptAttrs cfg.output c.name).isOk = true) :
    ∃ js, generateBundle cfg bundle =
      ⟨[(cfg.jsEntryFile, js), (cfg.cssEntryFile, "")], none⟩ := by
  have hs := scriptLines_eq_map cfg.publicDir cfg.output _ hsok
  have hfilter : (selectEntries cfg.chunks bundle).filter
      (fun c => c.importedCss.length > 0) = [] := by
    rw [List.filter_eq_nil_iff]
    intro c hcmem
    simp [hcss c hcmem]
  have hl : linkBlocks cfg.publicDir cfg.output
      ((selectEntries cfg.chunks bundle).filter
        (fun c => c.importedCss.length > 0)) = .ok [] := by
    rw [hfilter]; rfl
  exact ⟨_, by rw [generateBundle_all_ok cfg bundle _ _ hne hs hl]; rfl⟩

/-- Witness for the amended C8: one entry chunk, no imported css, default
attributes. -/
theorem C8_write_empty_amended_witness :
    validConfig cfgW8
    ∧ selectEntries cfgW8.chunks [itemW8] ≠ []
    ∧ (∀ c ∈ selectEntries cfgW8.chunks [itemW8], c.importedCss = [])
    ∧ (∀ c ∈ selectEntries cfgW8.chunks [itemW8],
        (resolveScriptAttrs cfgW8.output c.name).isOk = true)
    ∧ ∃ js, generateBundle cfgW8 [itemW8] =
        ⟨[(cfgW8.jsEntryFile, js), (cfgW8.cssEntryFile, "")], none⟩ :=
  ⟨by decide, by decide, by decide, by decide,
    C8_write_empty_amended cfgW8 [itemW8] (by decide) (by decide)
      (by decide) (by decide)⟩

/-- Claim C10: when script-attribute resolution succeeds for every
selected entry but some selected entry with non-empty imported css is
matched by an override whose `linkAttrs` is not an array, the script
markup is written and then the link phase raises the
invalid-link-attributes error: the outcome holds exactly one write — the
script file's — together with the error (the two output writes are not
atomic as a pair). -/
theorem C10_script_written_then_link_error (cfg : PluginConfig)
    (bundle : List BundleItem) (c : BundleItem) (r : OutRecord)
    (o : OutputOptions)
    (hne : selectEntries cfg.chunks bundle ≠ [])
    (hsok : ∀ x ∈ selectEntries cfg.chunks bundle,
      (resolveScriptAttrs cfg.output x.name).isOk = true)
    (hc : c ∈ selectEntries cfg.chunks bundle)
    (hcss : c.importedCss ≠ [])
    (hf : findMatching cfg.output c.name = some r)
    (hlk : List.lookup c.name r = some o)
    (hnon : o.linkAttrs = .nonArr) :
    ∃ js n, generateBundle cfg bundle =
      ⟨[(cfg.jsEntryFile, js)], some (.invalidLinkAttrs n)⟩ := by
  have hs := scriptLines_eq_map cfg.publicDir cfg.output _ hsok
  have hres : resolveLinkAttrs cfg.output c.name =
      .error (.invalidLinkAttrs c.name) := by
    unfold resolveLinkAttrs
    simp only [hf, hlk, hnon]
  have hmemf : c ∈ (selectEntries cfg.chunks bundle).filter
      (fun c => c.importedCss.length > 0) := by
    rw [List.mem_filter]
    refine ⟨hc, ?_⟩
    cases hcc : c.importedCss with
    | nil => exact absurd hcc hcss
    | cons a as => simp [hcc]
  cases hl : linkBlocks cfg.publicDir cfg.output
      ((selectEntries cfg.chunks bundle).filter
        (fun c => c.importedCss.length > 0)) with
  | ok blocks =>
    obtain ⟨t, ht⟩ := linkBlocks_ok_mem _ _ _ _ hl c hmemf
    rw [ht] at hres; cases hres
  | error e =>
    obtain ⟨n, rfl⟩ := linkBlocks_error_shape _ _ _ _ hl
    exact ⟨_, n, generateBundle_link_err cfg bundle _ _ hne hs hl⟩

/-- Witness for C10: valid `attrs`, non-array `linkAttrs`, imported css. -/
theorem C10_script_written_then_link_error_witness :
    selectEntries cfgW10.chunks [itemW10] ≠ []
    ∧ (∀ x ∈ selectEntries cfgW10.chunks [itemW10],
        (resolveScriptAttrs cfgW10.output x.name).isOk = true)
    ∧ itemW10 ∈ selectEntries cfgW10.chunks [itemW10]
    ∧ itemW10.importedCss ≠ []
    ∧ findMatching cfgW10.output itemW10.name =
        some [("app", ⟨.arr ["type=\"module\""], .nonArr⟩)]
    ∧ List.lookup itemW10.name
        [("app", (⟨.arr ["type=\"module\""], .nonArr⟩ : OutputOptions))] =
        some ⟨.arr ["type=\"module\""], .nonArr⟩
    ∧ ∃ js n, generateBundle cfgW10 [itemW10] =
        ⟨[(cfgW10.jsEntryFile, js)], some (.invalidLinkAttrs n)⟩ :=
  ⟨by decide, by decide, by decide, by decide, by decide, by decide,
    C10_script_written_then_link_error cfgW10 [itemW10] itemW10
      [("app", ⟨.arr ["type=\"module\""], .nonArr⟩)]
      ⟨.arr ["type=\"module\""], .nonArr⟩
      (by decide) (by decide) (by decide) (by decide) (by decide)
      (by decide) (by decide)⟩
